import Mathlib

/-!
Shallow embedding of the two Dify plugin tools of this repository:
`src/tools/extract_audio.py` (Tool A, audio extraction) and
`src/tools/video_info.py` (Tool B, metadata probe).

Loosely typed Python values that flow through the pipelines are modelled
by `PyVal`, parsed JSON by `Json`.  Each tool's `_invoke` generator is
modelled as a pure function from an environment (HTTP responses, the
`DIFY_BASE_URL` environment variable, fault switches for the temp-file
write and the external binaries, a clock) and the tool parameters to an
`InvokeResult`: the list of yielded messages, the HTTP GET requests
issued, the temporary files created, the temporary files remaining on
disk when the invocation returns, and the exception escaping the
invocation boundary, if any.
-/

namespace FfmpegDify

/-- Model of the loosely typed Python values reaching the tools: `None`,
strings, integers, dicts and attribute-bearing objects. -/
inductive PyVal where
  | vNone
  | vStr (s : String)
  | vInt (n : Int)
  | vDict (kvs : List (String × PyVal))
  | vObj (attrs : List (String × PyVal))

/-- Parsed JSON values: the output of `json.loads` on the ffprobe report
and the payloads of the structured messages the tools yield. -/
inductive Json where
  | jnull
  | jbool (b : Bool)
  | jnum (q : ℚ)
  | jstr (s : String)
  | jarr (elems : List Json)
  | jobj (fields : List (String × Json))

/-- Python exceptions that can arise in the pipelines. -/
inductive PyErr where
  | valueError (msg : String)
  | attributeError (msg : String)
  | typeError (msg : String)
  | osError (msg : String)
  | runtimeError (msg : String)
  | jsonDecodeError (msg : String)
  | ffmpegError (msg : String)
  | connectionError (msg : String)
deriving DecidableEq

/-- Split a character list at every occurrence of a separator character;
Python `s.split(sep)` for a one-character separator. -/
def charSplit : List Char → Char → List (List Char)
  | [], _ => [[]]
  | x :: xs, c =>
    if x == c then [] :: charSplit xs c
    else
      match charSplit xs c with
      | [] => [[x]]
      | y :: ys => (x :: y) :: ys

/-- Last element of a list, with a default. -/
def lastD : List α → α → α
  | [], d => d
  | [x], _ => x
  | _ :: y :: ys, d => lastD (y :: ys) d

/-- `s.startswith(p)` on strings. -/
def strStartsWith (s p : String) : Bool :=
  List.isPrefixOf p.data s.data

/-- ASCII lowercase of one character. -/
def charLower (c : Char) : Char :=
  if 65 ≤ c.toNat && c.toNat ≤ 90 then Char.ofNat (c.toNat + 32) else c

/-- `s.lower()` on strings (ASCII model). -/
def strLower (s : String) : String :=
  String.mk (s.data.map charLower)

/-- Python whitespace as stripped by `str.strip()`. -/
def isSpaceChar (c : Char) : Bool :=
  c == ' ' || c == '\n' || c == '\t' || c == '\r'

/-- `s.strip()` on strings. -/
def strStrip (s : String) : String :=
  String.mk (((s.data.dropWhile isSpaceChar).reverse.dropWhile isSpaceChar).reverse)

/-- Python `str(e)` on a caught exception: its message. -/
def PyErr.text : PyErr → String
  | .valueError m => m
  | .attributeError m => m
  | .typeError m => m
  | .osError m => m
  | .runtimeError m => m
  | .jsonDecodeError m => m
  | .ffmpegError m => m
  | .connectionError m => m

/-- The three kinds of messages a tool invocation yields. -/
inductive Msg where
  | text (s : String)
  | json (j : Json)
  | blob (filename : String) (mime : String)

/-- Python `dict.get(k, d)` on the tool-parameter dict. -/
def dictGet (kvs : List (String × PyVal)) (k : String) (d : PyVal) : PyVal :=
  (List.lookup k kvs).getD d

/-- `get_field(obj, field, default)` from both source files: `obj.get` for
dicts, `getattr(obj, field, default)` otherwise.  `getattr` with a default
on a value lacking the attribute returns the default. -/
def get_field (obj : PyVal) (field : String) (default : PyVal) : PyVal :=
  match obj with
  | .vDict kvs => (List.lookup field kvs).getD default
  | .vObj attrs => (List.lookup field attrs).getD default
  | _ => default

/-- Python truthiness of a `PyVal`. -/
def pyTruthy : PyVal → Bool
  | .vNone => false
  | .vStr s => !s.data.isEmpty
  | .vInt n => n != 0
  | .vDict kvs => !kvs.isEmpty
  | .vObj _ => true

/-- Python `v == s` against a string literal: only equal strings compare
equal; values of other types are never equal to a string. -/
def pyEqStr (v : PyVal) (s : String) : Bool :=
  match v with
  | .vStr t => t == s
  | _ => false

/-- Python `str(v)` as used in f-string interpolation.  Container
rendering is abbreviated; the claims only exercise the scalar cases. -/
def pyStrOf : PyVal → String
  | .vNone => "None"
  | .vStr s => s
  | .vInt n => toString n
  | .vDict _ => "<dict>"
  | .vObj _ => "<object>"

/-- Python `v.lower()`: succeeds on strings, raises `AttributeError` on
every other value. -/
def pyLower : PyVal → Except PyErr String
  | .vStr s => .ok (strLower s)
  | _ => .error (.attributeError "object has no attribute lower")

/-- The string carried by a `PyVal`, when it is one. -/
def pyAsStr : PyVal → Option String
  | .vStr s => some s
  | _ => none

/-- The `suffix=` argument of `NamedTemporaryFile`: accepts a string or
`None` (treated as the empty suffix); any other value raises `TypeError`
before the file is created. -/
def tempSuffix : PyVal → Option String
  | .vStr s => some s
  | .vNone => some ""
  | _ => none

/-- Python `s.rfind(c)`: index of the last occurrence, `-1` if absent. -/
def strRfind (s : String) (c : Char) : Int :=
  match (s.data.reverse).findIdx? (fun x => x == c) with
  | none => -1
  | some i => (s.data.length : Int) - 1 - (i : Int)

/-- `os.path.splitext`: split off the extension at the last dot that lies
after the last slash and after at least one non-dot character of the
final path component. -/
def splitextParts (p : String) : String × String :=
  let sepIndex := strRfind p '/'
  let dotIndex := strRfind p '.'
  if sepIndex < dotIndex then
    let base := ((p.data.drop (sepIndex + 1).toNat).take (dotIndex - sepIndex - 1).toNat)
    if base.any (fun ch => ch != '.') then
      (String.mk (p.data.take dotIndex.toNat), String.mk (p.data.drop dotIndex.toNat))
    else (p, "")
  else (p, "")

/-- Python `url.split("?")[0]`: the URL up to the query string. -/
def urlQueryStrip (u : String) : String :=
  String.mk ((charSplit u.data '?').headD [])

/-- `os.path.basename`: the part after the last slash. -/
def basename (p : String) : String :=
  String.mk (lastD (charSplit p.data '/') [])

/-- The JSON object `\x7bstatus: "error", message: m\x7d` both tools emit
on failure. -/
def errorJson (m : String) : Json :=
  .jobj [("status", .jstr "error"), ("message", .jstr m)]

/-- The audio formats accepted by Tool A (`valid_formats`). -/
def validFormats : List String := ["mp3", "aac", "wav", "ogg", "flac"]

/-- Lines 30-33 of `extract_audio.py`: an unsupported (already lowercased)
format yields a warning text message and is coerced to `mp3`; a supported
one is kept. -/
def normalizeAudioFormat (audio_format : String) : List Msg × String :=
  if audio_format ∈ validFormats then ([], audio_format)
  else ([.text ("⚠️ 不支持的音频格式: " ++ audio_format ++ "，将自动转为 mp3")], "mp3")

/-- The `mime_types` table of Tool A. -/
def mimeTypes : List (String × String) :=
  [("mp3", "audio/mpeg"), ("aac", "audio/aac"), ("wav", "audio/wav"),
   ("ogg", "audio/ogg"), ("flac", "audio/flac")]

/-- `ExtractAudioTool._get_codec_for_format`: table lookup with
stream-copy fallback. -/
def getCodecForFormat (audio_format : String) : String :=
  (List.lookup audio_format
    [("mp3", "libmp3lame"), ("aac", "aac"), ("wav", "pcm_s16le"),
     ("ogg", "libvorbis"), ("flac", "flac")]).getD "copy"

/-- Two-decimal rendering of a rational, modelling the `:.2f` format used
in the human-readable summaries (rounding modelled as round-half-up on
the exact value). -/
def twoDecimalsOfRat (q : ℚ) : String :=
  let c : Int := ⌊q * 100 + 1 / 2⌋
  let whole := c / 100
  let frac := (c % 100).natAbs
  toString whole ++ "." ++ (if frac < 10 then "0" else "") ++ toString frac

/-- Byte count rendered in MiB with two decimals. -/
def formatMB (n : Nat) : String :=
  twoDecimalsOfRat ((n : ℚ) / (1024 * 1024))

/-- Environment of one invocation: the outcome of attempting an HTTP
GET per URL (a status code and an abstract body identifier, or an
exception raised by the HTTP client, e.g. a connection error), the
`DIFY_BASE_URL` environment variable, fault switches for the temp-file
write and the external binaries, the ffprobe report, the size of the
transcoded output and the clock used for the output temp-file name. -/
structure Env where
  http : String → Except PyErr (Nat × Nat)
  difyBaseUrl : Option String
  writeErr : Option String
  ffmpegErr : Option String
  outSize : Nat
  probeReturncode : Int
  probeStdout : Option Json
  probeStderr : String
  time : Nat

/-- Observable outcome of driving one `_invoke` generator to completion:
the yielded messages, the exception escaping the invocation (if any), the
HTTP GETs issued, the temp files created and those remaining on disk. -/
structure InvokeResult where
  msgs : List Msg
  escaped : Option PyErr
  calls : List String
  created : List String
  remaining : List String

/-- Outcome of Tool A's `try` body (lines 44-118): messages yielded inside
it, HTTP GETs, temp files created and remaining after its own `finally`
ran, and the exception propagating out of the body towards `except`. -/
structure BodyOut where
  msgs : List Msg := []
  calls : List String := []
  created : List String := []
  remaining : List String := []
  err : Option PyErr := none

/-- Lines 51-54 of `extract_audio.py`: after a successful remote fetch the
extension is always recomputed from the URL path (`.mp4` when the URL
basename has none) and the filename is taken from the URL only when the
caller-supplied filename is falsy.  The caller-supplied extension
(third argument) is discarded. -/
def remoteNameDerivation (file_url : String) (filename : PyVal) (_file_extension : PyVal) :
    PyVal × PyVal :=
  let filename_from_url := basename (urlQueryStrip file_url)
  let ext := (splitextParts filename_from_url).2
  let new_extension := PyVal.vStr (if ext = "" then ".mp4" else ext)
  let new_filename := if pyTruthy filename then filename else .vStr filename_from_url
  (new_filename, new_extension)

/-- The fetch step of Tool A (lines 44-68): the issued HTTP GETs paired
with either the fetched body and the (possibly rederived) filename and
extension, or the exception raised. -/
def fetchA (env : Env) (transfer_method filename0 file_extension0 file_url : PyVal) :
    List String × Except PyErr (Nat × PyVal × PyVal) :=
    if pyEqStr transfer_method "remote_url" then
      if !pyTruthy file_url then
        ([], .error (.valueError "无效的远程 URL：缺少 http(s) 协议"))
      else
        match file_url with
        | .vStr u =>
          if !(strStartsWith u "http://" || strStartsWith u "https://") then
            ([], .error (.valueError "无效的远程 URL：缺少 http(s) 协议"))
          else
            match env.http u with
            | .error e => ([u], .error e)
            | .ok r =>
              if r.1 != 200 then
                ([u], .error (.valueError ("视频文件下载失败：" ++ u)))
              else
                let d := remoteNameDerivation u filename0 file_extension0
                ([u], .ok (r.2, d.1, d.2))
        | _ => ([], .error (.attributeError "object has no attribute startswith"))
    else if pyEqStr transfer_method "local_file" then
      if !pyTruthy file_url then
        ([], .error (.valueError "无效的本地文件 URL"))
      else
        match file_url with
        | .vStr u =>
          if !strStartsWith u "/files/" then
            ([], .error (.valueError "无效的本地文件 URL"))
          else
            let base_url := env.difyBaseUrl.getD "http://api:5001"
            let full_url := base_url ++ u
            match env.http full_url with
            | .error e => ([full_url], .error e)
            | .ok r =>
              if r.1 != 200 then
                ([full_url], .error (.valueError ("无法下载本地文件：" ++ u)))
              else
                ([full_url], .ok (r.2, filename0, file_extension0))
        | _ => ([], .error (.attributeError "object has no attribute startswith"))
    else
      ([], .error (.valueError ("不支持的 transfer_method: " ++ pyStrOf transfer_method)))

/-- The `try` body of `ExtractAudioTool._invoke` (lines 44-118): fetch,
materialize to a temp file, transcode inside the inner `try/finally`,
and yield the success messages. -/
def toolABody (env : Env) (transfer_method filename0 file_extension0 file_url : PyVal)
    (audio_format : String) : BodyOut :=
  match fetchA env transfer_method filename0 file_extension0 file_url with
  | (calls, .error e) => { calls := calls, err := some e }
  | (calls, .ok (_body, filename, file_extension)) =>
    match pyAsStr filename with
    | none => { calls := calls, err := some (.typeError "expected str, bytes or os.PathLike object") }
    | some fnStr =>
      let orig_filename := (splitextParts fnStr).1
      let output_filename := orig_filename ++ "." ++ audio_format
      match tempSuffix file_extension with
      | none => { calls := calls, err := some (.typeError "bad temp file suffix") }
      | some suf =>
        let in_temp_path := "/tmp/in_temp" ++ suf
        match env.writeErr with
        | some m =>
          { calls := calls, created := [in_temp_path], remaining := [in_temp_path],
            err := some (.osError m) }
        | none =>
          let out_temp_path := "/tmp/audio_" ++ toString env.time ++ "." ++ audio_format
          let progress := Msg.text ("🔄 正在提取音频为 `" ++ audio_format ++ "` 格式...")
          match env.ffmpegErr with
          | some m =>
            { msgs := [progress], calls := calls, created := [in_temp_path],
              remaining := [], err := some (.ffmpegError m) }
          | none =>
            let audio_size := env.outSize
            let mime := (List.lookup audio_format mimeTypes).getD ("audio/" ++ audio_format)
            let successJson := Json.jobj
              [("status", .jstr "success"),
               ("message", .jstr ("成功提取音频为 " ++ audio_format)),
               ("original_filename", .jstr fnStr),
               ("audio_filename", .jstr output_filename),
               ("audio_format", .jstr audio_format),
               ("audio_size", .jnum (audio_size : ℚ))]
            let summary := Msg.text ("✅ 已成功提取音频：" ++ output_filename ++
              "\n格式: " ++ audio_format ++ "\n大小: " ++ formatMB audio_size ++ " MB")
            { msgs := [progress, .blob output_filename mime, .json successJson, summary],
              calls := calls, created := [in_temp_path, out_temp_path],
              remaining := [], err := none }

/-- `ExtractAudioTool._invoke` driven to completion.  Lines 20-41 run
before the `try`: an exception there (the `.lower()` call on a non-string
`audio_format`) escapes the invocation.  Every exception leaving the
`try` body is converted by the `except` clause (lines 120-126) into a
text message and a JSON error message. -/
def extractAudioInvoke (env : Env) (params : List (String × PyVal)) : InvokeResult :=
  let video_meta :=
    let v := dictGet params "video" .vNone
    if pyTruthy v then v else .vDict []
  let transfer_method := get_field video_meta "transfer_method" (.vStr "local_file")
  let filename := get_field video_meta "filename" (.vStr "video.mp4")
  let file_extension := get_field video_meta "extension" (.vStr ".mp4")
  let file_url := get_field video_meta "url" (.vStr "")
  let _mime_type := get_field video_meta "mime_type" (.vStr "video/mp4")
  match pyLower (dictGet params "audio_format" (.vStr "mp3")) with
  | .error e =>
    { msgs := [], escaped := some e, calls := [], created := [], remaining := [] }
  | .ok lowered =>
    let wf := normalizeAudioFormat lowered
    let body := toolABody env transfer_method filename file_extension file_url wf.2
    match body.err with
    | none =>
      { msgs := wf.1 ++ body.msgs, escaped := none, calls := body.calls,
        created := body.created, remaining := body.remaining }
    | some e =>
      let emsg := "❌ 处理视频文件时出错: " ++ e.text
      { msgs := wf.1 ++ body.msgs ++ [.text emsg, .json (errorJson emsg)],
        escaped := none, calls := body.calls,
        created := body.created, remaining := body.remaining }

/-! ## Tool B: `VideoInfoTool._invoke` -/

/-- Python `stream.get(k, d)` on a parsed JSON value: dict lookup with a
default; any non-dict value raises `AttributeError`. -/
def jGet (j : Json) (k : String) (d : Json) : Except PyErr Json :=
  match j with
  | .jobj kvs => .ok ((List.lookup k kvs).getD d)
  | _ => .error (.attributeError "object has no attribute get")

/-- A simple unsigned decimal literal (digits with an optional fractional
part), modelling the number strings ffprobe emits. -/
def parseDecimal? (s : String) : Option ℚ :=
  let ok (ds : List Char) : Bool := !ds.isEmpty && ds.all (·.isDigit)
  let natOf (ds : List Char) : ℚ :=
    (ds.foldl (fun acc c => acc * 10 + (c.toNat - 48)) 0 : ℕ)
  match charSplit s.data '.' with
  | [w] => if ok w then some (natOf w) else none
  | [w, f] =>
    if ok w && ok f then
      some (natOf w + natOf f / (10 : ℚ) ^ f.length)
    else none
  | _ => none

/-- Python `float(x)` on a parsed JSON value: numbers pass through,
numeric strings are parsed, booleans become 0/1, everything else raises. -/
def pyFloatJson : Json → Except PyErr ℚ
  | .jnum q => .ok q
  | .jstr s =>
    match parseDecimal? s with
    | some q => .ok q
    | none => .error (.valueError ("could not convert string to float: " ++ s))
  | .jbool b => .ok (if b then 1 else 0)
  | _ => .error (.typeError "float() argument must be a string or a real number")

/-- Truncation toward zero, Python's `int()` on a float. -/
def ratTrunc (q : ℚ) : Int :=
  if 0 ≤ q then ⌊q⌋ else -⌊-q⌋

/-- Python `int(x)` on a parsed JSON value: numbers truncate toward zero,
integer strings are parsed, booleans become 0/1, everything else raises. -/
def pyIntJson : Json → Except PyErr Int
  | .jnum q => .ok (ratTrunc q)
  | .jstr s =>
    if !s.data.isEmpty && s.data.all (·.isDigit) then
      .ok ((s.data.foldl (fun acc c => acc * 10 + (c.toNat - 48)) 0 : ℕ) : Int)
    else .error (.valueError ("invalid literal for int() with base 10: " ++ s))
  | .jbool b => .ok (if b then 1 else 0)
  | _ => .error (.typeError "int() argument must be a string or a number")

/-- Python `j == s` against a string literal: only equal strings compare
equal; JSON values of other shapes are never equal to a string. -/
def jEqStr (j : Json) (s : String) : Bool :=
  match j with
  | .jstr t => t == s
  | _ => false

/-- The per-stream record Tool B builds (`stream_info`): the three common
fields are always present; the video-only and audio-only fields are
present exactly when the corresponding branch ran. -/
structure StreamOut where
  index : Json
  codec_type : Json
  codec_name : Json
  width : Option Json := none
  height : Option Json := none
  r_frame_rate : Option Json := none
  display_aspect_ratio : Option Json := none
  sample_rate : Option Json := none
  channels : Option Json := none
  channel_layout : Option Json := none

/-- The `format` part of Tool B's `formatted_info`. -/
structure FormatOut where
  format_name : Json
  duration : ℚ
  size : Int
  bit_rate : Int

/-- Lines 113-133 of `video_info.py`: shape one probe stream into a
`StreamOut`, branching on `codec_type`. -/
def shapeStream (stream : Json) : Except PyErr StreamOut := do
  let idx ← jGet stream "index" .jnull
  let ct ← jGet stream "codec_type" .jnull
  let cn ← jGet stream "codec_name" .jnull
  if jEqStr ct "video" then
    let w ← jGet stream "width" .jnull
    let h ← jGet stream "height" .jnull
    let fr ← jGet stream "r_frame_rate" .jnull
    let dar ← jGet stream "display_aspect_ratio" (.jstr "unknown")
    pure { index := idx, codec_type := ct, codec_name := cn,
           width := some w, height := some h, r_frame_rate := some fr,
           display_aspect_ratio := some dar }
  else if jEqStr ct "audio" then
    let sr ← jGet stream "sample_rate" .jnull
    let ch ← jGet stream "channels" .jnull
    let cl ← jGet stream "channel_layout" (.jstr "unknown")
    pure { index := idx, codec_type := ct, codec_name := cn,
           sample_rate := some sr, channels := some ch, channel_layout := some cl }
  else
    pure { index := idx, codec_type := ct, codec_name := cn }

/-- Lines 100-133 of `video_info.py`: reshape the parsed ffprobe report
into the format record and the shaped streams, with the documented
defaults for absent optional fields. -/
def formatProbeInfo (info : Json) : Except PyErr (FormatOut × List StreamOut) := do
  let fmt ← jGet info "format" (.jobj [])
  let format_name ← jGet fmt "format_name" (.jstr "unknown")
  let duration ← pyFloatJson (← jGet fmt "duration" (.jnum 0))
  let size ← pyIntJson (← jGet fmt "size" (.jnum 0))
  let bit_rate ← pyIntJson (← jGet fmt "bit_rate" (.jnum 0))
  let streamsJ ←
    match (← jGet info "streams" (.jarr [])) with
    | .jarr xs => pure xs
    | .jobj kvs => pure (kvs.map (fun kv => Json.jstr kv.1))
    | .jstr s => pure (s.data.map (fun c => Json.jstr (String.mk [c])))
    | _ => throw (.typeError "object is not iterable")
  let streams ← streamsJ.mapM shapeStream
  pure (⟨format_name, duration, size, bit_rate⟩, streams)

/-- Python `str(v)` on a parsed JSON value, as used in the summary
f-strings.  Container rendering is abbreviated; the claims only exercise
the scalar cases. -/
def pyStrOfJson : Json → String
  | .jnull => "None"
  | .jbool b => if b then "True" else "False"
  | .jnum q => if q.den = 1 then toString q.num else toString q
  | .jstr s => s
  | .jarr _ => "<list>"
  | .jobj _ => "<dict>"

mutual

/-- Serialization of a `PyVal` into the JSON message payload (only the
`filename` slot of Tool B's success message exercises this).  Objects are
not JSON-serializable; that corner is collapsed to `null` here. -/
def jsonOfPy : PyVal → Json
  | .vNone => .jnull
  | .vStr s => .jstr s
  | .vInt n => .jnum (n : ℚ)
  | .vDict kvs => .jobj (jsonOfPyKVs kvs)
  | .vObj _ => .jnull

/-- Pointwise serialization of dict entries. -/
def jsonOfPyKVs : List (String × PyVal) → List (String × Json)
  | [] => []
  | (k, v) :: rest => (k, jsonOfPy v) :: jsonOfPyKVs rest

end

/-- A key-value entry for an optional `stream_info` field. -/
def optEntry (k : String) (v : Option Json) : List (String × Json) :=
  match v with
  | some j => [(k, j)]
  | none => []

/-- The dict Tool B appends to `formatted_info["streams"]` for one
stream: the common fields plus the branch-specific ones. -/
def streamOutToJson (s : StreamOut) : Json :=
  .jobj ([("index", s.index), ("codec_type", s.codec_type), ("codec_name", s.codec_name)]
    ++ optEntry "width" s.width ++ optEntry "height" s.height
    ++ optEntry "r_frame_rate" s.r_frame_rate
    ++ optEntry "display_aspect_ratio" s.display_aspect_ratio
    ++ optEntry "sample_rate" s.sample_rate ++ optEntry "channels" s.channels
    ++ optEntry "channel_layout" s.channel_layout)

/-- Tool B's success JSON message (`formatted_info`). -/
def formattedInfoToJson (filename : PyVal) (f : FormatOut) (streams : List StreamOut) : Json :=
  .jobj [("status", .jstr "success"),
         ("filename", jsonOfPy filename),
         ("format", .jobj [("format_name", f.format_name),
                           ("duration", .jnum f.duration),
                           ("size", .jnum (f.size : ℚ)),
                           ("bit_rate", .jnum (f.bit_rate : ℚ))]),
         ("streams", .jarr (streams.map streamOutToJson))]

/-- One line of Tool B's human summary for a stream (lines 143-147). -/
def streamSummaryLine (s : StreamOut) : String :=
  if jEqStr s.codec_type "video" then
    "📹 视频流: " ++ pyStrOfJson (s.width.getD .jnull) ++ "x" ++
      pyStrOfJson (s.height.getD .jnull) ++ " / 编码: " ++ pyStrOfJson s.codec_name ++ "\n"
  else if jEqStr s.codec_type "audio" then
    "🔊 音频流: 编码: " ++ pyStrOfJson s.codec_name ++ " / 采样率: " ++
      (match s.sample_rate with
       | some v => pyStrOfJson v
       | none => "未知") ++ "\n"
  else ""

/-- Tool B's multi-line human summary (lines 135-147), before `strip`. -/
def buildSummaryB (filename : PyVal) (f : FormatOut) (streams : List StreamOut) : String :=
  let d := f.duration
  "🎬 **" ++ pyStrOf filename ++ " 视频信息摘要**\n" ++
  "格式: " ++ pyStrOfJson f.format_name ++ "\n" ++
  "时长: " ++ toString (⌊d / 60⌋) ++ "分 " ++ toString (ratTrunc (d - 60 * ⌊d / 60⌋)) ++ "秒\n" ++
  "大小: " ++ twoDecimalsOfRat ((f.size : ℚ) / (1024 * 1024)) ++ " MB\n" ++
  "平均码率: " ++ twoDecimalsOfRat ((f.bit_rate : ℚ) / 1000) ++ " kbps\n" ++
  String.join (streams.map streamSummaryLine)

/-- Python `v is None`. -/
def pyIsNone : PyVal → Bool
  | .vNone => true
  | _ => false

/-- Outcome of Tool B's fetch phase (lines 36-81), which runs outside any
`try`: an exception escaping the invocation, a handled failure that
yields its messages and returns, or fetched bytes. -/
inductive BFetch where
  | escape (e : PyErr) (calls : List String)
  | failMsgs (msgs : List Msg) (calls : List String)
  | fetched (body : Nat) (calls : List String)

/-- The HTTP GETs recorded in a fetch-phase outcome. -/
def BFetch.calls : BFetch → List String
  | .escape _ calls => calls
  | .failMsgs _ calls => calls
  | .fetched _ calls => calls

/-- The fetch phase of Tool B (lines 36-81): runs outside any `try`. -/
def fetchB (env : Env) (video_meta transfer_method file_url : PyVal) : BFetch :=
  if pyEqStr transfer_method "local_file" then
        match file_url with
        | .vStr u =>
          if !strStartsWith u "/files/" then
            .failMsgs [.text "❌ 本地文件URL不合法，请检查。",
                       .json (errorJson "Invalid local file URL.")] []
          else
            let base_url := "http://api:5001"
            let full_url := base_url ++ u
            match env.http full_url with
            | .error e => .escape e [full_url]
            | .ok r =>
              if r.1 != 200 then
                .failMsgs [.text "❌ 无法下载 Dify 本地文件，请确认文件URL正确并已登录。",
                           .json (errorJson ("Failed to fetch local file: " ++ toString r.1))]
                          [full_url]
              else .fetched r.2 [full_url]
        | _ => .escape (.attributeError "object has no attribute startswith") []
      else if pyEqStr transfer_method "remote_url" then
        match get_field video_meta "remote_url" (.vStr "") with
        | .vStr u =>
          if !strStartsWith u "http" then
            .failMsgs [.text "❌ 远程 URL 缺少协议前缀 http:// 或 https://",
                       .json (errorJson "Invalid remote URL")] []
          else
            match env.http u with
            | .error e => .escape e [u]
            | .ok r =>
              if r.1 != 200 then
                .failMsgs [.text "❌ 无法下载远程文件",
                           .json (errorJson ("Failed to fetch remote file: " ++ toString r.1))]
                          [u]
              else .fetched r.2 [u]
        | _ => .escape (.attributeError "object has no attribute startswith") []
  else
    .failMsgs [.text "❌ 不支持的传输方式",
               .json (errorJson ("Unsupported transfer method: " ++ pyStrOf transfer_method))] []

/-- `VideoInfoTool._invoke` driven to completion.  The fetch phase runs
outside any `try`, so an exception there (e.g. `.startswith` on a
non-string url) escapes the invocation; the probe phase (lines 84-158)
is wrapped in `try/except/finally`, the `finally` deleting the temp file
only when `temp_file_path` was assigned. -/
def videoInfoInvoke (env : Env) (params : List (String × PyVal)) : InvokeResult :=
  let video_meta := dictGet params "video" .vNone
  if pyIsNone video_meta then
    { msgs := [.text "❌ 缺少 video 参数", .json (errorJson "Missing video parameter")],
      escaped := none, calls := [], created := [], remaining := [] }
  else
    let transfer_method := get_field video_meta "transfer_method" (.vStr "local_file")
    let filename := get_field video_meta "filename" (.vStr "video.mp4")
    let extension := get_field video_meta "extension" (.vStr ".mp4")
    let file_url := get_field video_meta "url" (.vStr "")
    let _mime_type := get_field video_meta "mime_type" (.vStr "video/mp4")
    match fetchB env video_meta transfer_method file_url with
    | .escape e calls =>
      { msgs := [], escaped := some e, calls := calls, created := [], remaining := [] }
    | .failMsgs ms calls =>
      { msgs := ms, escaped := none, calls := calls, created := [], remaining := [] }
    | .fetched _body calls =>
      match tempSuffix extension with
      | none =>
        let m := "❌ 处理视频失败: bad temp file suffix"
        { msgs := [.text m, .json (errorJson m)], escaped := none, calls := calls,
          created := [], remaining := [] }
      | some suf =>
        let temp_path := "/tmp/temp_file" ++ suf
        match env.writeErr with
        | some werr =>
          let m := "❌ 处理视频失败: " ++ werr
          { msgs := [.text m, .json (errorJson m)], escaped := none, calls := calls,
            created := [temp_path], remaining := [temp_path] }
        | none =>
          if env.probeReturncode != 0 then
            let m := "❌ 处理视频失败: ffprobe error: " ++ env.probeStderr
            { msgs := [.text m, .json (errorJson m)], escaped := none, calls := calls,
              created := [temp_path], remaining := [] }
          else
            match env.probeStdout with
            | none =>
              let m := "❌ 处理视频失败: Expecting value: line 1 column 1 (char 0)"
              { msgs := [.text m, .json (errorJson m)], escaped := none, calls := calls,
                created := [temp_path], remaining := [] }
            | some info =>
              match formatProbeInfo info with
              | .error e =>
                let m := "❌ 处理视频失败: " ++ e.text
                { msgs := [.text m, .json (errorJson m)], escaped := none, calls := calls,
                  created := [temp_path], remaining := [] }
              | .ok fs =>
                let summary := buildSummaryB filename fs.1 fs.2
                { msgs := [.text (strStrip summary), .json (formattedInfoToJson filename fs.1 fs.2)],
                  escaped := none, calls := calls, created := [temp_path], remaining := [] }

/-- A benign environment: every GET answers 200, no environment variable,
no injected faults, a successful probe with an empty report. -/
def envDefault : Env where
  http := fun _ => .ok (200, 0)
  difyBaseUrl := none
  writeErr := none
  ffmpegErr := none
  outSize := 1048576
  probeReturncode := 0
  probeStdout := some (.jobj [])
  probeStderr := ""
  time := 42

/-- Tool parameters with a `remote_url` video whose `url` field is `u`. -/
def paramsRemoteA (u : String) : List (String × PyVal) :=
  [("video", .vDict [("transfer_method", .vStr "remote_url"), ("url", .vStr u)])]

/-- Tool parameters with a `remote_url` video whose `remote_url` field is
`u` (the field Tool B actually reads on this path). -/
def paramsRemoteB (u : String) : List (String × PyVal) :=
  [("video", .vDict [("transfer_method", .vStr "remote_url"), ("remote_url", .vStr u)])]

/-- Tool parameters with a `local_file` video whose `url` field is `u`. -/
def paramsLocal (u : String) : List (String × PyVal) :=
  [("video", .vDict [("transfer_method", .vStr "local_file"), ("url", .vStr u)])]

/-- Tool parameters with an arbitrary `transfer_method` value. -/
def paramsWithTm (tm : PyVal) : List (String × PyVal) :=
  [("video", .vDict [("transfer_method", tm)])]

/-- The benign environment with the `DIFY_BASE_URL` variable set. -/
def envOtherBase : Env :=
  { envDefault with difyBaseUrl := some "http://other:9999" }

/-- The benign environment with a fault injected into the write of the
fetched bytes to the temporary file. -/
def envWriteFail : Env :=
  { envDefault with writeErr := some "No space left on device" }

/-- The benign environment with an HTTP client that raises a connection
error on every GET. -/
def envHttpRaise : Env :=
  { envDefault with http := fun _ => .error (.connectionError "Connection refused") }

/-- Tool A parameters: a well-formed remote video plus an arbitrary
`audio_format` string. -/
def paramsAF (s : String) : List (String × PyVal) :=
  [("video", .vDict [("transfer_method", .vStr "remote_url"), ("url", .vStr "http://h/v.mp4")]),
   ("audio_format", .vStr s)]

/-- Unfolding lemma for the bind of `Except` on a success. -/
@[simp] theorem exceptOkBind {ε α β : Type} (a : α) (f : α → Except ε β) :
    (Except.ok a).bind f = f a := rfl

/-- Unfolding lemma for the bind of `Except` on an error. -/
@[simp] theorem exceptErrorBind {ε α β : Type} (e : ε) (f : α → Except ε β) :
    (Except.error e : Except ε α).bind f = Except.error e := rfl

/-- A string with a nonempty prefix is nonempty. -/
theorem startsWith_nonempty (u p : String) (hp : p.data ≠ []) (h : strStartsWith u p = true) :
    u.data.isEmpty = false := by
  unfold strStartsWith at h
  cases hu : u.data with
  | nil =>
    rw [hu] at h
    cases hpd : p.data with
    | nil => exact absurd hpd hp
    | cons c cs => rw [hpd] at h; simp [List.isPrefixOf] at h
  | cons c cs => rfl

/-- Tool A propagates the fetch step's HTTP call list unchanged through
the rest of the `try` body. -/
theorem toolABody_calls_eq (env : Env) (tm fn fe fu : PyVal) (af : String) :
    (toolABody env tm fn fe fu af).calls = (fetchA env tm fn fe fu).1 := by
  unfold toolABody
  repeat' split
  all_goals simp_all

/-- When the write of the fetched bytes succeeds, every path through
Tool A's `try` body ends with both temp files deleted. -/
theorem toolABody_remaining_nil (env : Env) (tm fn fe fu : PyVal) (af : String)
    (h : env.writeErr = none) :
    (toolABody env tm fn fe fu af).remaining = [] := by
  unfold toolABody
  repeat' split
  all_goals simp_all

/-- When the write of the fetched bytes succeeds, no temp file of Tool A
remains after the invocation. -/
theorem extractAudio_remaining_nil (env : Env) (params : List (String × PyVal))
    (h : env.writeErr = none) :
    (extractAudioInvoke env params).remaining = [] := by
  unfold extractAudioInvoke
  split
  · simp
  · dsimp only
    split <;> simp_all [toolABody_remaining_nil]

/-- When the write of the fetched bytes succeeds, no temp file of Tool B
remains after the invocation. -/
theorem videoInfo_remaining_nil (env : Env) (params : List (String × PyVal))
    (h : env.writeErr = none) :
    (videoInfoInvoke env params).remaining = [] := by
  unfold videoInfoInvoke
  dsimp only
  split
  · rfl
  · rcases hfb : fetchB env (dictGet params "video" PyVal.vNone)
        (get_field (dictGet params "video" PyVal.vNone) "transfer_method" (PyVal.vStr "local_file"))
        (get_field (dictGet params "video" PyVal.vNone) "url" (PyVal.vStr "")) with ⟨e, cs⟩ | ⟨ms, cs⟩ | ⟨b, cs⟩ <;>
      simp only [hfb]
    all_goals simp only [h]
    all_goals repeat' split
    all_goals rfl

/-- Tool B propagates the fetch phase's HTTP call list unchanged through
the probe phase. -/
theorem videoInfo_calls_eq (env : Env) (params : List (String × PyVal))
    (h : pyIsNone (dictGet params "video" .vNone) = false) :
    (videoInfoInvoke env params).calls =
      (fetchB env (dictGet params "video" .vNone)
        (get_field (dictGet params "video" .vNone) "transfer_method" (.vStr "local_file"))
        (get_field (dictGet params "video" .vNone) "url" (.vStr ""))).calls := by
  unfold videoInfoInvoke
  dsimp only
  rw [if_neg (by simp [h])]
  rcases hfb : fetchB env (dictGet params "video" PyVal.vNone)
      (get_field (dictGet params "video" PyVal.vNone) "transfer_method" (PyVal.vStr "local_file"))
      (get_field (dictGet params "video" PyVal.vNone) "url" (PyVal.vStr "")) with ⟨e, cs⟩ | ⟨ms, cs⟩ | ⟨b, cs⟩ <;>
    simp only [hfb, BFetch.calls]
  all_goals repeat' split
  all_goals rfl

/-- Tool A's remote fetch issues exactly one GET to the given URL when
its prefix check passes. -/
theorem fetchA_remote_calls (env : Env) (fn fe : PyVal) (u : String)
    (hp : (strStartsWith u "http://" || strStartsWith u "https://") = true) :
    (fetchA env (.vStr "remote_url") fn fe (.vStr u)).1 = [u] := by
  have hne : u.data.isEmpty = false := by
    rcases Bool.or_eq_true_iff.mp hp with h | h
    · exact startsWith_nonempty u "http://" (by decide) h
    · exact startsWith_nonempty u "https://" (by decide) h
  unfold fetchA
  simp only [pyEqStr, pyTruthy, hne, hp]
  simp
  split
  · rfl
  · split <;> rfl

/-- Tool A's local fetch issues exactly one GET to the base address
(environment variable, defaulting to `http://api:5001`) concatenated
with the relative url. -/
theorem fetchA_local_calls (env : Env) (fn fe : PyVal) (u : String)
    (hp : strStartsWith u "/files/" = true) :
    (fetchA env (.vStr "local_file") fn fe (.vStr u)).1
      = [env.difyBaseUrl.getD "http://api:5001" ++ u] := by
  have hne : u.data.isEmpty = false := startsWith_nonempty u "/files/" (by decide) hp
  unfold fetchA
  simp only [pyEqStr, pyTruthy, hne, hp]
  simp
  split
  · rfl
  · split <;> rfl

/-- Tool B's remote fetch issues exactly one GET to the `remote_url`
field when it starts with `http`. -/
theorem fetchB_remote_calls (env : Env) (fu : PyVal) (u : String)
    (hp : strStartsWith u "http" = true) :
    (fetchB env (.vDict [("transfer_method", .vStr "remote_url"), ("remote_url", .vStr u)])
      (.vStr "remote_url") fu).calls = [u] := by
  unfold fetchB
  simp only [pyEqStr, get_field, List.lookup, hp]
  simp [hp]
  split
  · rfl
  · split <;> rfl

/-- Tool B's local fetch issues exactly one GET to the fixed base
address `http://api:5001` concatenated with the relative url. -/
theorem fetchB_local_calls (env : Env) (vm : PyVal) (u : String)
    (hp : strStartsWith u "/files/" = true) :
    (fetchB env vm (.vStr "local_file") (.vStr u)).calls = ["http://api:5001" ++ u] := by
  unfold fetchB
  simp only [pyEqStr, hp]
  simp [hp]
  split
  · rfl
  · split <;> rfl

/-- Tool A propagates the fetch step's HTTP call list unchanged through
the whole invocation whenever the `audio_format` parameter is a string. -/
theorem extractAudio_calls_eq (env : Env) (params : List (String × PyVal)) (l : String)
    (hl : pyLower (dictGet params "audio_format" (.vStr "mp3")) = .ok l) :
    (extractAudioInvoke env params).calls =
      (fetchA env
        (get_field (if pyTruthy (dictGet params "video" .vNone) = true then
            dictGet params "video" .vNone else .vDict []) "transfer_method" (.vStr "local_file"))
        (get_field (if pyTruthy (dictGet params "video" .vNone) = true then
            dictGet params "video" .vNone else .vDict []) "filename" (.vStr "video.mp4"))
        (get_field (if pyTruthy (dictGet params "video" .vNone) = true then
            dictGet params "video" .vNone else .vDict []) "extension" (.vStr ".mp4"))
        (get_field (if pyTruthy (dictGet params "video" .vNone) = true then
            dictGet params "video" .vNone else .vDict []) "url" (.vStr ""))).1 := by
  unfold extractAudioInvoke
  dsimp only
  simp only [hl]
  split <;> simp [toolABody_calls_eq]

/-- A `PyVal` whose string view is defined is a string. -/
theorem pyAsStr_isSome (v : PyVal) (h : (pyAsStr v).isSome = true) : ∃ s, v = .vStr s := by
  cases v <;> simp_all [pyAsStr]

/-- Tool B's fetch phase cannot raise when the `url` and `remote_url`
fields of the video reference are strings and the HTTP client raises no
exception (its `requests.get` calls run outside any `try`). -/
theorem fetchB_escape_cases (env : Env) (vm tm : PyVal) (e : PyErr) (cs : List String)
    (fu : PyVal)
    (hfb : fetchB env vm tm fu = .escape e cs)
    (hu : (pyAsStr fu).isSome = true)
    (hr : (pyAsStr (get_field vm "remote_url" (.vStr ""))).isSome = true)
    (hok : ∀ u x, env.http u ≠ .error x) : False := by
  obtain ⟨su, hsu⟩ := pyAsStr_isSome fu hu
  obtain ⟨sr, hsr⟩ := pyAsStr_isSome _ hr
  unfold fetchB at hfb
  rw [hsu, hsr] at hfb
  repeat' split at hfb
  all_goals simp_all
  all_goals split at hfb
  all_goals try simp_all
  all_goals split at hfb <;> simp_all

/-- Claim C3 (confirmed): the codec-selection function of Tool A maps
mp3 to libmp3lame, aac to aac, wav to pcm_s16le, ogg to libvorbis, flac
to flac, and every other string to the stream-copy codec `copy`. -/
theorem codec_selection_table (s : String) (h : s ∉ validFormats) :
    getCodecForFormat "mp3" = "libmp3lame" ∧ getCodecForFormat "aac" = "aac" ∧
    getCodecForFormat "wav" = "pcm_s16le" ∧ getCodecForFormat "ogg" = "libvorbis" ∧
    getCodecForFormat "flac" = "flac" ∧ getCodecForFormat s = "copy" := by
  refine ⟨rfl, rfl, rfl, rfl, rfl, ?_⟩
  simp only [validFormats, List.mem_cons, List.not_mem_nil, or_false, not_or] at h
  obtain ⟨h1, h2, h3, h4, h5⟩ := h
  have e1 : (s == "mp3") = false := by simp [h1]
  have e2 : (s == "aac") = false := by simp [h2]
  have e3 : (s == "wav") = false := by simp [h3]
  have e4 : (s == "ogg") = false := by simp [h4]
  have e5 : (s == "flac") = false := by simp [h5]
  simp [getCodecForFormat, List.lookup, e1, e2, e3, e4, e5]

/-- Witness for C3 at the concrete unknown format `webm`. -/
theorem codec_selection_table_witness : getCodecForFormat "webm" = "copy" :=
  (codec_selection_table "webm" (by decide)).2.2.2.2.2

/-- Claim C9 (confirmed): `get_field` returns the named field of a dict
or of an attribute-bearing object when present, and otherwise the given
default; it is total (never raises).  Applied to an empty video
reference, the resolver yields the documented defaults for each of the
five fields. -/
theorem get_field_contract :
    (∀ kvs f d v, List.lookup f kvs = some v → get_field (.vDict kvs) f d = v) ∧
    (∀ kvs f d, List.lookup f kvs = none → get_field (.vDict kvs) f d = d) ∧
    (∀ attrs f d v, List.lookup f attrs = some v → get_field (.vObj attrs) f d = v) ∧
    (∀ attrs f d, List.lookup f attrs = none → get_field (.vObj attrs) f d = d) ∧
    (get_field (.vDict []) "transfer_method" (.vStr "local_file") = .vStr "local_file" ∧
     get_field (.vDict []) "filename" (.vStr "video.mp4") = .vStr "video.mp4" ∧
     get_field (.vDict []) "extension" (.vStr ".mp4") = .vStr ".mp4" ∧
     get_field (.vDict []) "url" (.vStr "") = .vStr "" ∧
     get_field (.vDict []) "mime_type" (.vStr "video/mp4") = .vStr "video/mp4") := by
  refine ⟨?_, ?_, ?_, ?_, rfl, rfl, rfl, rfl, rfl⟩ <;>
    intro kvs f d
  · intro v hv
    simp [get_field, hv]
  · intro hv
    simp [get_field, hv]
  · intro v hv
    simp [get_field, hv]
  · intro hv
    simp [get_field, hv]

/-- Witness for C9: a present field is returned, an absent one defaults,
for both dict-shaped and object-shaped references. -/
theorem get_field_contract_witness :
    get_field (.vDict [("url", .vStr "/files/x.mp4")]) "url" (.vStr "") = .vStr "/files/x.mp4" ∧
    get_field (.vObj []) "filename" (.vStr "video.mp4") = .vStr "video.mp4" :=
  ⟨get_field_contract.1 _ _ _ _ rfl, get_field_contract.2.2.2.1 _ _ _ rfl⟩

/-- Counterexample to claim C10: with url `http://h/clip.avi` and a
caller-supplied filename `myvid.custom` and extension `.mov`, the code
keeps the caller filename but replaces the extension with `.avi` derived
from the URL, contradicting the claim that the caller-supplied extension
is used. -/
theorem remote_name_counterexample :
    (remoteNameDerivation "http://h/clip.avi" (.vStr "myvid.custom") (.vStr ".mov")).1
      = .vStr "myvid.custom" ∧
    (remoteNameDerivation "http://h/clip.avi" (.vStr "myvid.custom") (.vStr ".mov")).2
      = .vStr ".avi" ∧
    PyVal.vStr ".avi" ≠ PyVal.vStr ".mov" := by
  refine ⟨rfl, rfl, ?_⟩
  simp

/-- Claim C10 (corrected): after a successful remote fetch, the filename
is taken from the URL path only when the caller-supplied filename is
falsy (a supplied filename is kept), but the extension is always
rederived from the URL path component before the query string (with
`.mp4` as fallback when the URL basename has no extension), so the
caller-supplied extension is discarded. -/
theorem remote_name_derivation_spec (u : String) (fn fe fe' : PyVal) :
    (remoteNameDerivation u fn fe).2 = (remoteNameDerivation u fn fe').2 ∧
    (pyTruthy fn = true → (remoteNameDerivation u fn fe).1 = fn) ∧
    (pyTruthy fn = false →
      (remoteNameDerivation u fn fe).1 = .vStr (basename (urlQueryStrip u))) ∧
    ((splitextParts (basename (urlQueryStrip u))).2 = "" →
      (remoteNameDerivation u fn fe).2 = .vStr ".mp4") := by
  refine ⟨rfl, ?_, ?_, ?_⟩
  · intro h
    simp [remoteNameDerivation, h]
  · intro h
    simp [remoteNameDerivation, h]
  · intro h
    simp [remoteNameDerivation, h]

/-- Witness for C10 as corrected: a truthy caller filename is kept, a
falsy one is replaced by the URL-derived name, and an extension-free URL
falls back to `.mp4`. -/
theorem remote_name_derivation_spec_witness :
    (remoteNameDerivation "http://h/clip" (.vStr "a.mp4") (.vStr ".mov")).1 = .vStr "a.mp4" ∧
    (remoteNameDerivation "http://h/clip" (.vStr "") (.vStr ".mov")).1 = .vStr "clip" ∧
    (remoteNameDerivation "http://h/clip" (.vStr "a.mp4") (.vStr ".mov")).2 = .vStr ".mp4" := by
  refine ⟨(remote_name_derivation_spec "http://h/clip" (.vStr "a.mp4") (.vStr ".mov") (.vStr ".mov")).2.1 rfl,
          ?_, (remote_name_derivation_spec "http://h/clip" (.vStr "a.mp4") (.vStr ".mov") (.vStr ".mov")).2.2.2 rfl⟩
  have := (remote_name_derivation_spec "http://h/clip" (.vStr "") (.vStr ".mov") (.vStr ".mov")).2.2.1 rfl
  simpa using this

/-- Claim C8 (confirmed): when optional fields are absent from the probe
result, the reshaping substitutes the documented defaults — format_name
`unknown`, duration 0, size 0, bit_rate 0, display_aspect_ratio
`unknown` on a video stream, channel_layout `unknown` on an audio
stream — and it succeeds (returns `.ok`) rather than failing. -/
theorem probe_reshaping_defaults (fmt v a : List (String × Json))
    (hn : List.lookup "format_name" fmt = none)
    (hd : List.lookup "duration" fmt = none)
    (hsz : List.lookup "size" fmt = none)
    (hbr : List.lookup "bit_rate" fmt = none)
    (hv : List.lookup "codec_type" v = some (.jstr "video"))
    (hvd : List.lookup "display_aspect_ratio" v = none)
    (ha : List.lookup "codec_type" a = some (.jstr "audio"))
    (hal : List.lookup "channel_layout" a = none) :
    formatProbeInfo (.jobj []) = .ok (⟨.jstr "unknown", 0, 0, 0⟩, []) ∧
    (formatProbeInfo (.jobj [("format", .jobj fmt), ("streams", .jarr [.jobj v, .jobj a])])).toOption.map
        (fun r => (r.1, r.2.map (fun s => (s.display_aspect_ratio, s.channel_layout))))
      = some (⟨.jstr "unknown", 0, 0, 0⟩,
              [(some (.jstr "unknown"), none), (none, some (.jstr "unknown"))]) := by
  constructor
  · rfl
  · simp [formatProbeInfo, jGet, List.lookup, hn, hd, hsz, hbr, bind, pure, Except.pure,
          Except.toOption,
          List.mapM, List.mapM.loop, shapeStream, jEqStr, hv, hvd, ha, hal,
          pyFloatJson, pyIntJson, ratTrunc]

/-- Witness for C8 at a minimal probe report: an empty format object and
one bare video and one bare audio stream. -/
theorem probe_reshaping_defaults_witness :
    (formatProbeInfo (.jobj [("format", .jobj []),
        ("streams", .jarr [.jobj [("codec_type", .jstr "video")],
                           .jobj [("codec_type", .jstr "audio")]])])).toOption.map
        (fun r => (r.1, r.2.map (fun s => (s.display_aspect_ratio, s.channel_layout))))
      = some (⟨.jstr "unknown", 0, 0, 0⟩,
              [(some (.jstr "unknown"), none), (none, some (.jstr "unknown"))]) :=
  (probe_reshaping_defaults [] [("codec_type", .jstr "video")] [("codec_type", .jstr "audio")]
    rfl rfl rfl rfl rfl rfl rfl rfl).2

/-- Claim C6 (confirmed): in Tool A, an `audio_format` whose lowercase
form is not among mp3/aac/wav/ogg/flac triggers a warning text message
and the pipeline proceeds with `mp3`; a format whose lowercase form is
in the set is used (in its lowercase form, so matching is
case-insensitive) with no warning. -/
theorem audio_format_policy (env : Env) (b : Nat) (s : String)
    (henv : env.http "http://h/v.mp4" = .ok (200, b))
    (hw : env.writeErr = none) (hf : env.ffmpegErr = none) :
    (strLower s ∉ validFormats →
      (extractAudioInvoke env (paramsAF s)).msgs =
        [.text ("⚠️ 不支持的音频格式: " ++ strLower s ++ "，将自动转为 mp3"),
         .text "🔄 正在提取音频为 `mp3` 格式...",
         .blob "video.mp3" "audio/mpeg",
         .json (.jobj [("status", .jstr "success"),
                       ("message", .jstr "成功提取音频为 mp3"),
                       ("original_filename", .jstr "video.mp4"),
                       ("audio_filename", .jstr "video.mp3"),
                       ("audio_format", .jstr "mp3"),
                       ("audio_size", .jnum (env.outSize : ℚ))]),
         .text ("✅ 已成功提取音频：" ++ ("video." ++ "mp3") ++ "\n格式: " ++ "mp3" ++
                "\n大小: " ++ formatMB env.outSize ++ " MB")]) ∧
    (strLower s ∈ validFormats →
      (extractAudioInvoke env (paramsAF s)).msgs =
        [.text ("🔄 正在提取音频为 `" ++ strLower s ++ "` 格式..."),
         .blob ("video." ++ strLower s)
               ((List.lookup (strLower s) mimeTypes).getD ("audio/" ++ strLower s)),
         .json (.jobj [("status", .jstr "success"),
                       ("message", .jstr ("成功提取音频为 " ++ strLower s)),
                       ("original_filename", .jstr "video.mp4"),
                       ("audio_filename", .jstr ("video." ++ strLower s)),
                       ("audio_format", .jstr (strLower s)),
                       ("audio_size", .jnum (env.outSize : ℚ))]),
         .text ("✅ 已成功提取音频：" ++ ("video." ++ strLower s) ++ "\n格式: " ++ strLower s ++
                "\n大小: " ++ formatMB env.outSize ++ " MB")]) := by
  constructor <;> intro h <;>
    simp [extractAudioInvoke, toolABody, fetchA, paramsAF, dictGet, get_field, List.lookup,
          pyTruthy, pyEqStr, pyLower, pyAsStr, tempSuffix, normalizeAudioFormat, h,
          henv, hw, hf, remoteNameDerivation, urlQueryStrip, basename, splitextParts,
          strRfind, charSplit, strStartsWith, mimeTypes, lastD]

/-- Witness for C6: `WEBM` is coerced (warning first, success JSON says
mp3); `WAV` is accepted case-insensitively (no warning, progress message
first). -/
theorem audio_format_policy_witness :
    (extractAudioInvoke envDefault (paramsAF "WEBM")).msgs.head? =
      some (.text ("⚠️ 不支持的音频格式: " ++ strLower "WEBM" ++ "，将自动转为 mp3")) ∧
    (extractAudioInvoke envDefault (paramsAF "WAV")).msgs.head? =
      some (.text "🔄 正在提取音频为 `wav` 格式...") := by
  constructor
  · rw [(audio_format_policy envDefault 0 "WEBM" rfl rfl rfl).1 (by decide)]
    rfl
  · rw [(audio_format_policy envDefault 0 "WAV" rfl rfl rfl).2 (by decide)]
    rfl

/-- Claim C7 (confirmed): for every `transfer_method` other than
`local_file` and `remote_url`, both tools fail with an unsupported-method
error naming the method, issue no HTTP request and create no temporary
file. -/
theorem unsupported_transfer_method (env : Env) (tm : PyVal)
    (h1 : tm ≠ .vStr "local_file") (h2 : tm ≠ .vStr "remote_url") :
    extractAudioInvoke env (paramsWithTm tm) =
      { msgs := [.text ("❌ 处理视频文件时出错: " ++ ("不支持的 transfer_method: " ++ pyStrOf tm)),
                 .json (errorJson ("❌ 处理视频文件时出错: " ++ ("不支持的 transfer_method: " ++ pyStrOf tm)))],
        escaped := none, calls := [], created := [], remaining := [] } ∧
    videoInfoInvoke env (paramsWithTm tm) =
      { msgs := [.text "❌ 不支持的传输方式",
                 .json (errorJson ("Unsupported transfer method: " ++ pyStrOf tm))],
        escaped := none, calls := [], created := [], remaining := [] } := by
  have e1 : pyEqStr tm "local_file" = false := by
    cases tm <;> simp_all [pyEqStr]
  have e2 : pyEqStr tm "remote_url" = false := by
    cases tm <;> simp_all [pyEqStr]
  have hmp3 : strLower "mp3" = "mp3" := rfl
  constructor <;>
    simp [extractAudioInvoke, videoInfoInvoke, toolABody, fetchA, fetchB, paramsWithTm, dictGet, get_field,
          List.lookup, pyTruthy, pyIsNone, pyLower, hmp3, normalizeAudioFormat, validFormats,
          e1, e2, PyErr.text, errorJson]

/-- Witness for C7 at the concrete method string `ftp`. -/
theorem unsupported_transfer_method_witness :
    (extractAudioInvoke envDefault (paramsWithTm (.vStr "ftp"))).calls = [] ∧
    (videoInfoInvoke envDefault (paramsWithTm (.vStr "ftp"))).created = [] := by
  have h := unsupported_transfer_method envDefault (.vStr "ftp") (by simp) (by simp)
  rw [h.1, h.2]
  exact ⟨rfl, rfl⟩

/-- Counterexample to claim C1: a non-string `audio_format` makes Tool
A's pre-`try` call to `.lower()` raise an `AttributeError` that escapes
the invocation; a `None` url field makes Tool B's unguarded
`.startswith` check raise an `AttributeError` that escapes; and an HTTP
client raising a connection error makes Tool B's unguarded
`requests.get` escape even with string-valued parameters, while Tool
A's `try` catches the same fault — so the invocation does propagate
exceptions for some parameter values. -/
theorem error_containment_counterexample :
    (extractAudioInvoke envDefault [("audio_format", .vInt 5)]).escaped
      = some (.attributeError "object has no attribute lower") ∧
    (videoInfoInvoke envDefault
        [("video", .vDict [("transfer_method", .vStr "local_file"), ("url", .vNone)])]).escaped
      = some (.attributeError "object has no attribute startswith") ∧
    (videoInfoInvoke envHttpRaise (paramsLocal "/files/a.mp4")).escaped
      = some (.connectionError "Connection refused") ∧
    (extractAudioInvoke envHttpRaise (paramsRemoteA "http://h/clip.avi")).escaped = none := by
  exact ⟨by decide, by decide, by decide, by decide⟩

/-- Claim C1 (corrected): Tool A, provided its `audio_format` parameter
is a string (or absent), propagates no exception — every error raised
inside its `try` block, including an HTTP-client exception from
`requests.get`, is caught and converted into the paired text + JSON
error response.  Tool B converts every error of its probe phase, but
its fetch phase runs outside any `try`, so it propagates nothing only
when additionally the `url` / `remote_url` fields are strings (or
absent) and the HTTP client raises no exception; a fault in those
pre-handler accesses or a raising GET escapes as an exception. -/
theorem error_containment (env : Env) (params : List (String × PyVal)) :
    ((pyAsStr (dictGet params "audio_format" (.vStr "mp3"))).isSome = true →
      (extractAudioInvoke env params).escaped = none) ∧
    ((pyAsStr (get_field (dictGet params "video" .vNone) "url" (.vStr ""))).isSome = true →
     (pyAsStr (get_field (dictGet params "video" .vNone) "remote_url" (.vStr ""))).isSome = true →
     (∀ u x, env.http u ≠ .error x) →
      (videoInfoInvoke env params).escaped = none) := by
  constructor
  · intro h1
    obtain ⟨l, hl⟩ := pyAsStr_isSome _ h1
    unfold extractAudioInvoke
    dsimp only
    simp only [hl, pyLower]
    split <;> rfl
  · intro h2 h3 hok
    unfold videoInfoInvoke
    dsimp only
    split
    · rfl
    · rcases hfb : fetchB env (dictGet params "video" PyVal.vNone)
          (get_field (dictGet params "video" PyVal.vNone) "transfer_method" (PyVal.vStr "local_file"))
          (get_field (dictGet params "video" PyVal.vNone) "url" (PyVal.vStr ""))
          with ⟨e, cs⟩ | ⟨ms, cs⟩ | ⟨b, cs⟩ <;> simp only [hfb]
      · exact (fetchB_escape_cases env _ _ e cs _ hfb h2 h3 hok).elim
      · repeat' split
        all_goals rfl

/-- Witness for C1 as corrected: with string-valued parameters Tool A
lets no exception escape even under a raising HTTP client, and Tool B
lets none escape under a non-raising one. -/
theorem error_containment_witness :
    (extractAudioInvoke envDefault (paramsRemoteA "http://h/clip.avi")).escaped = none ∧
    (extractAudioInvoke envHttpRaise (paramsRemoteA "http://h/clip.avi")).escaped = none ∧
    (videoInfoInvoke envDefault (paramsLocal "/files/a.mp4")).escaped = none :=
  ⟨(error_containment envDefault (paramsRemoteA "http://h/clip.avi")).1 rfl,
   (error_containment envHttpRaise (paramsRemoteA "http://h/clip.avi")).1 rfl,
   (error_containment envDefault (paramsLocal "/files/a.mp4")).2 rfl rfl
     (fun _ _ h => Except.noConfusion h)⟩

/-- Counterexample to claim C2: when the write of the fetched bytes to
the temporary file faults, both tools leak the just-created temp file —
Tool A because the inner `try/finally` is never entered, Tool B because
`temp_file_path` is still `None` when its `finally` runs. -/
theorem temp_cleanup_counterexample :
    (extractAudioInvoke envWriteFail (paramsRemoteA "http://h/clip.avi")).remaining
      = ["/tmp/in_temp.avi"] ∧
    (videoInfoInvoke envWriteFail (paramsLocal "/files/a.mp4")).remaining
      = ["/tmp/temp_file.mp4"] ∧
    (["/tmp/in_temp.avi"] : List String) ≠ [] := by
  exact ⟨by decide, by decide, by decide⟩

/-- Claim C2 (corrected): on every exit path on which the write of the
fetched bytes to the temporary file succeeds (success, handled error, or
a fault at any later step), no temporary file created by the invocation
remains on disk when it returns; a fault during the write itself leaks
the file. -/
theorem temp_cleanup_after_write (env : Env) (params : List (String × PyVal))
    (h : env.writeErr = none) :
    (extractAudioInvoke env params).remaining = [] ∧
    (videoInfoInvoke env params).remaining = [] :=
  ⟨extractAudio_remaining_nil env params h, videoInfo_remaining_nil env params h⟩

/-- Witness for C2 as corrected, in the benign environment. -/
theorem temp_cleanup_after_write_witness :
    (extractAudioInvoke envDefault (paramsRemoteA "http://h/clip.avi")).remaining = [] ∧
    (videoInfoInvoke envDefault (paramsLocal "/files/a.mp4")).remaining = [] :=
  ⟨(temp_cleanup_after_write envDefault (paramsRemoteA "http://h/clip.avi") rfl).1,
   (temp_cleanup_after_write envDefault (paramsLocal "/files/a.mp4") rfl).2⟩

/-- Counterexample to claim C4: Tool B checks only the prefix `http` on
the `remote_url` field, so the URL `httpgarbage`, which starts with
neither `http://` nor `https://`, is not rejected — a GET to it is
issued, contradicting the claimed InvalidInput failure before any HTTP
request. -/
theorem remote_url_validation_counterexample :
    (strStartsWith "httpgarbage" "http://" || strStartsWith "httpgarbage" "https://") = false ∧
    (videoInfoInvoke envDefault (paramsRemoteB "httpgarbage")).calls = ["httpgarbage"] := by
  exact ⟨by decide, by decide⟩

/-- Claim C4 (corrected): Tool A behaves as claimed — a `remote_url`
fetch fails with the invalid-URL error, before any HTTP request, for
every url not starting with `http://` or `https://`, and issues exactly
one GET for every url that does.  Tool B reads the `remote_url` field
and rejects (before any request) exactly the strings not starting with
the bare prefix `http`, issuing one GET for every string that does. -/
theorem remote_url_validation (env : Env) (u : String) :
    ((strStartsWith u "http://" || strStartsWith u "https://") = false →
      extractAudioInvoke env (paramsRemoteA u) =
        { msgs := [.text ("❌ 处理视频文件时出错: " ++ "无效的远程 URL：缺少 http(s) 协议"),
                   .json (errorJson ("❌ 处理视频文件时出错: " ++ "无效的远程 URL：缺少 http(s) 协议"))],
          escaped := none, calls := [], created := [], remaining := [] }) ∧
    ((strStartsWith u "http://" || strStartsWith u "https://") = true →
      (extractAudioInvoke env (paramsRemoteA u)).calls = [u]) ∧
    (strStartsWith u "http" = false →
      videoInfoInvoke env (paramsRemoteB u) =
        { msgs := [.text "❌ 远程 URL 缺少协议前缀 http:// 或 https://",
                   .json (errorJson "Invalid remote URL")],
          escaped := none, calls := [], created := [], remaining := [] }) ∧
    (strStartsWith u "http" = true →
      (videoInfoInvoke env (paramsRemoteB u)).calls = [u]) := by
  have hmp3 : strLower "mp3" = "mp3" := rfl
  refine ⟨?_, ?_, ?_, ?_⟩
  · intro h
    cases hne : u.data.isEmpty <;>
      simp [extractAudioInvoke, toolABody, fetchA, paramsRemoteA, dictGet, get_field,
            List.lookup, pyLower, hmp3, normalizeAudioFormat, validFormats, pyTruthy,
            pyEqStr, hne, h, PyErr.text, errorJson]
  · intro h
    rw [extractAudio_calls_eq env (paramsRemoteA u) "mp3" rfl]
    show (fetchA env (.vStr "remote_url") (.vStr "video.mp4") (.vStr ".mp4") (.vStr u)).1 = [u]
    exact fetchA_remote_calls env _ _ u h
  · intro h
    simp [videoInfoInvoke, fetchB, paramsRemoteB, dictGet, get_field, List.lookup,
          pyEqStr, pyIsNone, h, errorJson]
  · intro h
    rw [videoInfo_calls_eq env (paramsRemoteB u) rfl]
    show (fetchB env (.vDict [("transfer_method", .vStr "remote_url"), ("remote_url", .vStr u)])
      (.vStr "remote_url") (.vStr "")).calls = [u]
    exact fetchB_remote_calls env _ u h

/-- Witness for C4 as corrected, at four concrete URLs. -/
theorem remote_url_validation_witness :
    (extractAudioInvoke envDefault (paramsRemoteA "ftp://x")).calls = [] ∧
    (extractAudioInvoke envDefault (paramsRemoteA "http://ok/a.mp4")).calls = ["http://ok/a.mp4"] ∧
    (videoInfoInvoke envDefault (paramsRemoteB "nope")).calls = [] ∧
    (videoInfoInvoke envDefault (paramsRemoteB "https://ok/a.mp4")).calls
      = ["https://ok/a.mp4"] := by
  refine ⟨?_, ?_, ?_, ?_⟩
  · rw [(remote_url_validation envDefault "ftp://x").1 (by decide)]
  · exact (remote_url_validation envDefault "http://ok/a.mp4").2.1 (by decide)
  · rw [(remote_url_validation envDefault "nope").2.2.1 (by decide)]
  · exact (remote_url_validation envDefault "https://ok/a.mp4").2.2.2 (by decide)

/-- Counterexample to claim C5: with the environment variable set to a
different base address, Tool B still requests from the fixed
`http://api:5001` — its base address is hardcoded, not resolved from the
environment. -/
theorem local_base_counterexample :
    envOtherBase.difyBaseUrl = some "http://other:9999" ∧
    (videoInfoInvoke envOtherBase (paramsLocal "/files/a.mp4")).calls
      = ["http://api:5001/files/a.mp4"] ∧
    ("http://api:5001/files/a.mp4" : String) ≠ "http://other:9999/files/a.mp4" := by
  exact ⟨rfl, by decide, by decide⟩

/-- Claim C5 (corrected): for a `local_file` url starting with
`/files/`, Tool A fetches from the base address resolved from the
`DIFY_BASE_URL` environment variable (defaulting to `http://api:5001`
when unset) concatenated with the relative url; Tool B always fetches
from the fixed `http://api:5001` concatenated with the relative url,
ignoring the environment. -/
theorem local_base_resolution (env : Env) (u : String)
    (hp : strStartsWith u "/files/" = true) :
    (extractAudioInvoke env (paramsLocal u)).calls
      = [env.difyBaseUrl.getD "http://api:5001" ++ u] ∧
    (videoInfoInvoke env (paramsLocal u)).calls = ["http://api:5001" ++ u] := by
  constructor
  · rw [extractAudio_calls_eq env (paramsLocal u) "mp3" rfl]
    show (fetchA env (.vStr "local_file") (.vStr "video.mp4") (.vStr ".mp4") (.vStr u)).1 = _
    exact fetchA_local_calls env _ _ u hp
  · rw [videoInfo_calls_eq env (paramsLocal u) rfl]
    show (fetchB env (.vDict [("transfer_method", .vStr "local_file"), ("url", .vStr u)])
      (.vStr "local_file") (.vStr u)).calls = _
    exact fetchB_local_calls env _ u hp

/-- Witness for C5 as corrected: with the variable unset both tools use
the default base; with it set, only Tool A follows it. -/
theorem local_base_resolution_witness :
    (extractAudioInvoke envDefault (paramsLocal "/files/a.mp4")).calls
      = ["http://api:5001/files/a.mp4"] ∧
    (extractAudioInvoke envOtherBase (paramsLocal "/files/a.mp4")).calls
      = ["http://other:9999/files/a.mp4"] ∧
    (videoInfoInvoke envOtherBase (paramsLocal "/files/a.mp4")).calls
      = ["http://api:5001/files/a.mp4"] :=
  ⟨(local_base_resolution envDefault "/files/a.mp4" (by decide)).1,
   (local_base_resolution envOtherBase "/files/a.mp4" (by decide)).1,
   (local_base_resolution envOtherBase "/files/a.mp4" (by decide)).2⟩

end FfmpegDify
